import Mathlib

/-!
# Verification of the SF50 AFM table-extraction scripts

Shallow embedding of the table-reconstruction core of
`Data/make-tables/extract_g1_data.py` and `Data/make-tables/extract_g2plus_data.py`.

Conventions of the embedding:
* Python strings are Lean `String`s (a structure over `List Char`); most scanning
  is done on `List Char`.
* Python floats are modelled as exact rationals (`ℚ`): every decimal literal of the
  source is read as the exact decimal it denotes, and arithmetic on them is exact
  rational arithmetic.  (The source's ISA dictionary already spells out the float
  artifacts, e.g. `5.094000000000001`, so the grid lookups involve no arithmetic.)
* Python list indexing that can raise `IndexError` is modelled with `Option`.
* CSV records `[str(weight), altitude, str(temperature), value]` are modelled as
  structures whose `weight` is the integer weight, `altitude` the altitude string,
  `temp` the temperature (an `Int` for climb tables, a `ℚ` where the
  reference-atmosphere value can appear) and `value` the raw token string; the
  final `str(...)` serialization is not modelled.
* The leading CSV header row (`['weight', 'altitude', ...]`) is not modelled; the
  parse functions return only the data records, in emission order.
-/

namespace SF50

/-! ## String and character primitives mirroring the Python ones -/

/-- Python `\s` character class (`[ \t\n\r\f\v]`). -/
def pyWs (c : Char) : Bool :=
  c = ' ' || c = '\t' || c = '\n' || c = '\r' || c = '\x0b' || c = '\x0c'

/-- Accumulator pass for `digitRuns` (`cur` is the current run, reversed). -/
def digitRunsGo (cur : List Char) : List Char → List String
  | [] => if cur.isEmpty then [] else [String.mk cur.reverse]
  | c :: cs =>
    if c.isDigit then digitRunsGo (c :: cur) cs
    else if cur.isEmpty then digitRunsGo [] cs
    else String.mk cur.reverse :: digitRunsGo [] cs

/-- Maximal runs of decimal digits in a character list: this is exactly what
`re.findall(r'\d+', s)` returns on `s`. -/
def digitRuns (l : List Char) : List String := digitRunsGo [] l

/-- Python `str.strip()`: drop whitespace at both ends. -/
def pyStrip (s : String) : String :=
  String.mk (((s.toList.dropWhile pyWs).reverse.dropWhile pyWs).reverse)

/-- Python `s.split('\n')`. -/
def splitOnNl : List Char → List String
  | [] => [""]
  | c :: cs =>
    let r := splitOnNl cs
    if c = '\n' then "" :: r
    else
      match r with
      | s :: rest => String.mk (c :: s.toList) :: rest
      | [] => [String.mk [c]]

/-- Python `s.replace(pat, rep)` (non-overlapping, left to right); `skip` counts
characters of a just-matched occurrence still to be consumed. -/
def pyReplaceGo (pat rep : List Char) : List Char → Nat → List Char
  | [], _ => []
  | c :: cs, 0 =>
    if pat.isPrefixOf (c :: cs) then rep ++ pyReplaceGo pat rep cs (pat.length - 1)
    else c :: pyReplaceGo pat rep cs 0
  | _ :: cs, Nat.succ k => pyReplaceGo pat rep cs k

/-- Python `s.replace(pat, rep)` for a nonempty `pat`. -/
def pyReplace (s pat rep : String) : String :=
  String.mk (pyReplaceGo pat.toList rep.toList s.toList 0)

/-- `re.findall(r'\d+', s)`. -/
def findallDigits (s : String) : List String := digitRuns s.toList

/-- Python `str.isdigit()` restricted to ASCII content: nonempty and all digits. -/
def pyIsDigit (s : String) : Bool := !s.toList.isEmpty && s.toList.all Char.isDigit

/-- Python `int(...)` on a string of decimal digits. -/
def natOfDigits (s : String) : Nat :=
  s.toList.foldl (fun n c => n * 10 + (c.toNat - 48)) 0

/-- Python `sub in s` (substring containment). -/
def pyContains (s sub : String) : Bool :=
  go s.toList
where
  go : List Char → Bool
    | [] => sub.toList.isEmpty
    | c :: cs => sub.toList.isPrefixOf (c :: cs) || go cs

/-- Python slice `l[a:b]` (with `a ≤ b` as used in the source), as a string. -/
def sliceStr (l : List Char) (a b : Nat) : String :=
  String.mk ((l.drop a).take (b - a))

/-- Python list indexing `l[i]` for `i : Int`: negative indices count from the
end; an out-of-range index raises `IndexError`, modelled as `none`. -/
def pyListGet (l : List String) (i : Int) : Option String :=
  if 0 ≤ i then l.get? i.toNat
  else if 0 ≤ (l.length : Int) + i then l.get? ((l.length : Int) + i).toNat
  else none

/-! ## Reference-Atmosphere Resolver

`calculate_isa_temp` (identical in `extract_g1_data.py` and
`extract_g2plus_data.py`): a fixed dictionary for the 1000-ft grid points
0–10000, with the fallback `15.0 - (altitude / 1000.0 * self.isa_lapse_rate)`
(`isa_lapse_rate = 1.98`).  The Python dictionary lookup
`isa_values.get(altitude, default)` is a key-equality lookup modelled on the
association list (the keys are pairwise distinct).  Each rational is the exact
decimal spelled in the source, float artifacts included. -/

/-- Python `d.get(k, default)` on a dict with `Int` keys. -/
def pyDictGet (td : List (Int × ℚ)) (k : Int) (default : ℚ) : ℚ :=
  match td with
  | [] => default
  | (q, v) :: rest => if k = q then v else pyDictGet rest k default

/-- The `isa_values` dictionary. -/
def isaValues : List (Int × ℚ) :=
  [(0, 15),
   (1000, 130188 / 10000),                         -- 13.0188
   (2000, 11037600000000001 / 1000000000000000),   -- 11.037600000000001
   (3000, 90564 / 10000),                          -- 9.0564
   (4000, 7075200000000001 / 1000000000000000),    -- 7.075200000000001
   (5000, 5094000000000001 / 1000000000000000),    -- 5.094000000000001
   (6000, 3112800000000002 / 1000000000000000),    -- 3.112800000000002
   (7000, 11316000000000006 / 10000000000000000),  -- 1.1316000000000006
   (8000, -8495999999999988 / 10000000000000000),  -- -0.8495999999999988
   (9000, -28308 / 10000),                         -- -2.8308
   (10000, -4811999999999998 / 1000000000000000)]  -- -4.811999999999998

def calculate_isa_temp (altitude : Int) : ℚ :=
  pyDictGet isaValues altitude (15 - (altitude : ℚ) / 1000 * (198 / 100))

/-- The altitudes carried by the fixed ISA dictionary. -/
def isaGridAlts : List Int :=
  [0, 1000, 2000, 3000, 4000, 5000, 6000, 7000, 8000, 9000, 10000]

/-! ### C2 -/

/-- **C2, counterexample.**  The claim states that the resolver returns `5.094`
at 5000 ft.  The source dictionary maps 5000 to the float artifact
`5.094000000000001`, which is a different value (as a Python float and as an
exact decimal), so the claim as stated is false at altitude 5000. -/
theorem C2_counterexample : calculate_isa_temp 5000 ≠ 5094 / 1000 := by
  have h : calculate_isa_temp 5000 = 5094000000000001 / 1000000000000000 := rfl
  rw [h]
  norm_num

/-- **C2, amended.**  The reference-atmosphere resolver is a pure total function
on altitudes: on the grid {0, 1000, …, 10000} ft it returns the fixed dictionary
value (in particular 5000 ft returns `5.094000000000001` and 9000 ft returns
`-2.8308`), and for every altitude outside that grid it returns
`15.0 - (altitude / 1000) * 1.98`; it never raises an error (its embedding is a
total function with no `Option`). -/
theorem C2_amended :
    (calculate_isa_temp 0 = 15 ∧
     calculate_isa_temp 1000 = 130188 / 10000 ∧
     calculate_isa_temp 2000 = 11037600000000001 / 1000000000000000 ∧
     calculate_isa_temp 3000 = 90564 / 10000 ∧
     calculate_isa_temp 4000 = 7075200000000001 / 1000000000000000 ∧
     calculate_isa_temp 5000 = 5094000000000001 / 1000000000000000 ∧
     calculate_isa_temp 6000 = 3112800000000002 / 1000000000000000 ∧
     calculate_isa_temp 7000 = 11316000000000006 / 10000000000000000 ∧
     calculate_isa_temp 8000 = -8495999999999988 / 10000000000000000 ∧
     calculate_isa_temp 9000 = -28308 / 10000 ∧
     calculate_isa_temp 10000 = -4811999999999998 / 1000000000000000) ∧
    ∀ a : Int, a ∉ isaGridAlts →
      calculate_isa_temp a = 15 - (a : ℚ) / 1000 * (198 / 100) := by
  constructor
  · refine ⟨rfl, rfl, rfl, rfl, rfl, rfl, rfl, rfl, rfl, rfl, rfl⟩
  · intro a ha
    simp only [isaGridAlts, List.mem_cons, List.not_mem_nil, or_false] at ha
    push_neg at ha
    obtain ⟨h0, h1, h2, h3, h4, h5, h6, h7, h8, h9, h10⟩ := ha
    simp [calculate_isa_temp, isaValues, pyDictGet, h0, h1, h2, h3, h4, h5, h6, h7,
          h8, h9, h10]

/-- **C2, witness** for the amended theorem: altitude 500 ft is off the grid and
resolves by the linear formula to `14.01`; altitude 9000 ft is on the grid. -/
theorem C2_witness :
    calculate_isa_temp 500 = 1401 / 100 ∧ calculate_isa_temp 9000 = -28308 / 10000 := by
  constructor
  · have h := C2_amended.2 500 (by decide)
    rw [h]; norm_num
  · exact C2_amended.1.2.2.2.2.2.2.2.2.2.1

/-! ## Climb-matrix records and the per-row emission step (G1)

`parse_climb_gradient_tables` in `extract_g1_data.py` works with
`weights = [6000, 5500, 5000, 4500]` and a per-altitude map
`temp_data : temperature → list of value tokens`.  For each `(temp, values)`
pair (lines 568–582) it emits one record per value; when there are fewer values
than weights it skips the first (heaviest) weights. -/

def weights : List Nat := [6000, 5500, 5000, 4500]

/-- A data row `[str(weight), altitude, str(temp), value]` of a climb table. -/
structure ClimbRec where
  weight : Nat
  altitude : String
  temp : Int
  value : String
deriving DecidableEq, Repr

/-- Lines 568–582 of `extract_g1_data.py`: emission of one `(temp, values)`
cell.  The Python `for v_idx, value in enumerate(values)` loops are written as
`filterMap` over `List.range values.length` with Python's `values[v_idx]` as
`getD` (indices are in range throughout). -/
def emitRow (altitude : String) (temp : Int) (values : List String) : List ClimbRec :=
  if values.length < weights.length then
    -- fewer values than weights: skip the first (heaviest) weights
    let offset := weights.length - values.length
    (List.range values.length).filterMap fun v_idx =>
      if pyIsDigit (values.getD v_idx "") then
        some ⟨weights.getD (offset + v_idx) 0, altitude, temp, values.getD v_idx ""⟩
      else none
  else
    -- normal case: one value per weight, guarded by `w_idx < len(weights)`
    (List.range values.length).filterMap fun w_idx =>
      if w_idx < weights.length ∧ pyIsDigit (values.getD w_idx "") then
        some ⟨weights.getD w_idx 0, altitude, temp, values.getD w_idx ""⟩
      else none

/-! ### C1 -/

/-- **C1.**  For every climb-matrix temperature cell whose value list is shorter
than the weight list `[6000, 5500, 5000, 4500]`, the emission step assigns the
present values, in order, to the lightest weights (the weight list with its
heaviest entries dropped), and emits no record whose weight is one of the
dropped heaviest weights. -/
theorem C1_shortfall_policy (altitude : String) (temp : Int) (values : List String)
    (hlen : values.length < weights.length)
    (hdig : ∀ v ∈ values, pyIsDigit v = true) :
    emitRow altitude temp values =
      ((weights.drop (weights.length - values.length)).zip values).map
        (fun p => ⟨p.1, altitude, temp, p.2⟩) ∧
    ∀ r ∈ emitRow altitude temp values,
      r.weight ∉ weights.take (weights.length - values.length) := by
  match values with
  | [] => simp [emitRow, weights]
  | [a] =>
    have ha := hdig a (by simp)
    refine ⟨?_, ?_⟩ <;>
      simp [emitRow, weights, ha, List.range_succ]
  | [a, b] =>
    have ha := hdig a (by simp)
    have hb := hdig b (by simp)
    refine ⟨?_, ?_⟩ <;>
      simp [emitRow, weights, ha, hb, List.range_succ]
  | [a, b, c] =>
    have ha := hdig a (by simp)
    have hb := hdig b (by simp)
    have hc := hdig c (by simp)
    refine ⟨?_, ?_⟩ <;>
      simp [emitRow, weights, ha, hb, hc, List.range_succ]
  | a :: b :: c :: d :: rest =>
    exfalso
    simp [weights] at hlen
    omega

/-- **C1, witness**: three digit tokens go to the three lightest weights
5500, 5000, 4500 in order; no record is emitted for the heaviest weight. -/
theorem C1_witness :
    emitRow "1000" 0 ["100", "200", "300"] =
      [⟨5500, "1000", 0, "100"⟩, ⟨5000, "1000", 0, "200"⟩, ⟨4500, "1000", 0, "300"⟩] ∧
    ∀ r ∈ emitRow "1000" 0 ["100", "200", "300"], r.weight ∉ weights.take 1 := by
  have h := C1_shortfall_policy "1000" 0 ["100", "200", "300"] (by decide)
    (by intro v hv; fin_cases hv <;> decide)
  exact ⟨by rw [h.1]; rfl, h.2⟩

/-! ## The per-altitude temperature map and its emission

`temp_data` is a Python dict with `int` keys; `temp_data[temp] = values` either
replaces the entry already present for `temp` (last write wins) or appends a new
one.  Emission iterates `sorted(temp_data.items())`. -/

/-- Python `temp_data[k] = v` on an insertion-ordered dict. -/
def dictInsert (td : List (Int × List String)) (k : Int) (v : List String) :
    List (Int × List String) :=
  match td with
  | [] => [(k, v)]
  | (q, w) :: rest => if q = k then (k, v) :: rest else (q, w) :: dictInsert rest k v

/-- Insertion step of sorting the dict items by temperature key. -/
def insertSortedTemp (p : Int × List String) :
    List (Int × List String) → List (Int × List String)
  | [] => [p]
  | q :: qs => if p.1 ≤ q.1 then p :: q :: qs else q :: insertSortedTemp p qs

/-- Python `sorted(temp_data.items())` (keys are pairwise distinct, so sorting
by key alone is the same ordering). -/
def sortedItems (td : List (Int × List String)) : List (Int × List String) :=
  td.foldr insertSortedTemp []

/-- Lines 568–582 of `extract_g1_data.py`: emit all records of one altitude
block from its temperature map. -/
def emitAltitude (altitude : String) (td : List (Int × List String)) : List ClimbRec :=
  td.flatMap fun p => emitRow altitude p.1 p.2

/-- The (weight, altitude, temperature) key of a record. -/
def recKey (r : ClimbRec) : Nat × String × Int := (r.weight, r.altitude, r.temp)

/-! ### Helper lemmas for C3 -/

theorem filterMapRangeDropTail {α : Type} (m k : Nat) (f : Nat → Option α)
    (h : ∀ i, m ≤ i → f i = none) :
    (List.range (m + k)).filterMap f = (List.range m).filterMap f := by
  induction k with
  | zero => rfl
  | succ k ih =>
    rw [Nat.add_succ, List.range_succ, List.filterMap_append, ih]
    simp [h (m + k) (Nat.le_add_right m k)]

theorem emitRow_eq_zip (altitude : String) (temp : Int) (values : List String) :
    emitRow altitude temp values =
      ((if values.length < weights.length then
          weights.drop (weights.length - values.length)
        else weights).zip values).filterMap
        (fun p => if pyIsDigit p.2 then some ⟨p.1, altitude, temp, p.2⟩ else none) := by
  match values with
  | [] => simp [emitRow, weights]
  | [a] => by_cases h : pyIsDigit a <;> simp [emitRow, weights, h, List.range_succ]
  | [a, b] =>
    by_cases h : pyIsDigit a <;> by_cases h2 : pyIsDigit b <;>
      simp [emitRow, weights, h, h2, List.range_succ]
  | [a, b, c] =>
    by_cases h : pyIsDigit a <;> by_cases h2 : pyIsDigit b <;> by_cases h3 : pyIsDigit c <;>
      simp [emitRow, weights, h, h2, h3, List.range_succ]
  | a :: b :: c :: d :: rest =>
    have hnl : ¬ ((a :: b :: c :: d :: rest).length < weights.length) := by
      simp only [weights, List.length_cons, List.length_nil]
      omega
    have hsplit : (a :: b :: c :: d :: rest).length = 4 + rest.length := by
      simp only [List.length_cons]
      omega
    have hnone : ∀ i, 4 ≤ i →
        (if i < weights.length ∧ pyIsDigit ((a :: b :: c :: d :: rest).getD i "") then
          some (⟨weights.getD i 0, altitude, temp,
                 (a :: b :: c :: d :: rest).getD i ""⟩ : ClimbRec)
        else none) = none := by
      intro i hi
      have : ¬ (i < weights.length) := by simp [weights]; omega
      simp [this]
    rw [emitRow, if_neg hnl, hsplit]
    rw [filterMapRangeDropTail 4 rest.length _ hnone]
    by_cases h : pyIsDigit a <;> by_cases h2 : pyIsDigit b <;> by_cases h3 : pyIsDigit c <;>
      by_cases h4 : pyIsDigit d <;>
      simp [weights, h, h2, h3, h4, List.range_succ]

theorem emitRow_temp_eq (altitude : String) (temp : Int) (values : List String)
    (r : ClimbRec) (hr : r ∈ emitRow altitude temp values) : r.temp = temp := by
  rw [emitRow_eq_zip] at hr
  rw [List.mem_filterMap] at hr
  obtain ⟨p, _, hp⟩ := hr
  by_cases h : pyIsDigit p.2
  · rw [if_pos h] at hp
    cases hp
    rfl
  · rw [if_neg h] at hp
    cases hp

theorem emitRow_weight_sublist (altitude : String) (temp : Int) (values : List String) :
    ((emitRow altitude temp values).map ClimbRec.weight).Sublist weights := by
  rw [emitRow_eq_zip]
  set W := if values.length < weights.length then
      weights.drop (weights.length - values.length) else weights with hW
  have h1 : ((W.zip values).filterMap
        (fun p => if pyIsDigit p.2 then some (⟨p.1, altitude, temp, p.2⟩ : ClimbRec)
                  else none)).map ClimbRec.weight
      = ((W.zip values).filter (fun p => pyIsDigit p.2)).map Prod.fst := by
    induction W.zip values with
    | nil => rfl
    | cons p ps ih =>
      by_cases h : pyIsDigit p.2 <;>
        simp [List.filterMap_cons, List.filter_cons, h, ih]
  rw [h1]
  have h2 : (((W.zip values).filter (fun p => pyIsDigit p.2)).map Prod.fst).Sublist
      ((W.zip values).map Prod.fst) :=
    (List.filter_sublist _).map _
  have h3 : ((W.zip values).map Prod.fst).Sublist W := by
    by_cases hlt : values.length < weights.length
    · have hWd : W = weights.drop (weights.length - values.length) := by rw [hW, if_pos hlt]
      have hlen : W.length ≤ values.length := by
        rw [hWd, List.length_drop]
        simp only [weights, List.length_cons, List.length_nil] at hlt ⊢
        omega
      rw [List.map_fst_zip _ _ hlen]
    · have hWd : W = weights := by rw [hW, if_neg hlt]
      have hlen : W.length ≤ values.length := by
        rw [hWd]
        simp only [weights, List.length_cons, List.length_nil] at hlt ⊢
        omega
      rw [List.map_fst_zip _ _ hlen]
  have h4 : W.Sublist weights := by
    by_cases hlt : values.length < weights.length
    · rw [hW, if_pos hlt]; exact List.drop_sublist _ _
    · rw [hW, if_neg hlt]
  exact (h2.trans h3).trans h4

theorem emitAltitude_temp_mem (altitude : String) (td : List (Int × List String))
    (r : ClimbRec) (hr : r ∈ emitAltitude altitude td) : r.temp ∈ td.map Prod.fst := by
  rw [emitAltitude, List.mem_flatMap] at hr
  obtain ⟨p, hp, hrp⟩ := hr
  rw [emitRow_temp_eq altitude p.1 p.2 r hrp]
  exact List.mem_map_of_mem Prod.fst hp

/-! ### C3 -/

/-- **C3, amended.**  Within a single altitude block, the records emitted from
its temperature map have pairwise-distinct (weight, altitude, temperature)
keys, provided the map's temperature keys are distinct (which the dict
guarantees).  (The parts of the original claim about duplicate continuation
lines being *skipped* and key collisions being *surfaced* are false: a repeated
temperature line overwrites the stored values, last write wins, and collisions
across repeated anchor lines are silently resolved — see the counterexample.) -/
theorem C3_amended (altitude : String) (td : List (Int × List String))
    (h : (td.map Prod.fst).Nodup) :
    ((emitAltitude altitude td).map recKey).Nodup := by
  induction td with
  | nil => simp [emitAltitude]
  | cons p rest ih =>
    obtain ⟨t, vs⟩ := p
    rw [List.map_cons, List.nodup_cons] at h
    have hrest := ih h.2
    have hrow : ((emitRow altitude t vs).map recKey).Nodup := by
      have hw : ((emitRow altitude t vs).map ClimbRec.weight).Nodup :=
        (emitRow_weight_sublist altitude t vs).nodup (by decide)
      rw [List.Nodup, List.pairwise_map] at hw ⊢
      exact hw.imp fun hne heq => hne (congrArg Prod.fst heq)
    have hemit : emitAltitude altitude ((t, vs) :: rest) =
        emitRow altitude t vs ++ emitAltitude altitude rest := by
      simp [emitAltitude]
    rw [hemit, List.map_append, List.nodup_append]
    refine ⟨hrow, hrest, ?_⟩
    intro k hk hk2
    rw [List.mem_map] at hk hk2
    obtain ⟨r, hr, hkr⟩ := hk
    obtain ⟨r2, hr2, hkr2⟩ := hk2
    have ht : r.temp = t := emitRow_temp_eq altitude t vs r hr
    have ht2 : r2.temp ∈ rest.map Prod.fst := emitAltitude_temp_mem altitude rest r2 hr2
    have hts : r.temp = r2.temp := by
      have h12 := hkr.trans hkr2.symm
      exact congrArg (fun q => q.2.2) h12
    exact h.1 (by rw [← ht, hts]; exact ht2)

/-- **C3, witness** for the amended theorem, at a concrete two-temperature map
(one of the rows with a shortfall). -/
theorem C3_witness :
    ((emitAltitude "1000"
        [(-40, ["1", "2", "3", "4"]), (-30, ["5", "6", "7"])]).map recKey).Nodup :=
  C3_amended "1000" [(-40, ["1", "2", "3", "4"]), (-30, ["5", "6", "7"])] (by decide)

/-! ## Line Classifier for the G1 climb matrix

`parse_climb_gradient_tables` (G1, lines 430–584) recognises altitude anchors
with two regexes.

For `re.search(r'^(\d{1,5})\s*-40\s+([\d\s]+)', line)`: the pattern is
anchored, so group 1 is the maximal leading digit run when its length is 1–5
(a longer run cannot match: after fewer digits the next character is a digit,
which neither `\s*` nor `-` accepts), then optional whitespace, the literal
`-40`, at least one whitespace character and a nonempty run of digits and
whitespace.  `\s+([\d\s]+)` splits a `[\d\s]` run into a whitespace prefix and
group 2; since the caller only takes `re.findall(r'\d+', group2)`, returning
the whole run is equivalent (same digit runs). -/
def standaloneMatch (line : String) : Option (String × String) :=
  let l := line.toList
  let d := l.takeWhile Char.isDigit
  if 1 ≤ d.length ∧ d.length ≤ 5 then
    let r1 := (l.drop d.length).dropWhile pyWs
    if r1.take 3 = ['-', '4', '0'] then
      let after := r1.drop 3
      match after with
      | c0 :: _ =>
        if pyWs c0 then
          let full := after.takeWhile fun ch => ch.isDigit || pyWs ch
          if 2 ≤ full.length then some (String.mk d, String.mk full) else none
        else none
      | [] => none
    else none
  else none

/-- One candidate for `re.search(r'\d+-\d+(\d{4})-40\s+([\d\s]+)', line)` with
the literal `-40` at index `i`: the characters between the middle dash and this
`-40` are exactly the maximal digit run ending at `i` (it must have length ≥ 5
for `\d+(\d{4})`, group 1 being its last 4 digits), preceded by a dash preceded
by a digit; after the `-40`, whitespace then digits/whitespace as in the
standalone pattern. -/
def embeddedAt (l : List Char) (i : Nat) : Option (String × String) :=
  if (l.drop i).take 3 = ['-', '4', '0'] then
    let before := (l.take i).reverse
    let run := before.takeWhile Char.isDigit
    if 5 ≤ run.length then
      match before.drop run.length with
      | '-' :: c :: _ =>
        if c.isDigit then
          let after := l.drop (i + 3)
          match after with
          | c0 :: _ =>
            if pyWs c0 then
              let full := after.takeWhile fun ch => ch.isDigit || pyWs ch
              if 2 ≤ full.length then
                some (String.mk (run.take 4).reverse, String.mk full)
              else none
            else none
          | [] => none
        else none
      | _ => none
    else none
  else none

/-- `re.search(r'\d+-\d+(\d{4})-40\s+([\d\s]+)', line)`.  Scanning the `-40`
occurrences left to right and returning the first full match agrees with the
regex engine's leftmost-match rule: a match whose start precedes an earlier
valid `-40` occurrence would have to contain that occurrence inside its own
digits-only middle section, which is impossible. -/
def embeddedMatch (line : String) : Option (String × String) :=
  (List.range line.toList.length).findSome? (embeddedAt line.toList)

/-- Lines 448–465 of `extract_g1_data.py`: the altitude-anchor entries
contributed by one line (first the noise-embedded pattern, then the standalone
one), keeping only altitudes that are multiples of 1000 up to 10000 and carry
at least 4 value tokens. -/
def anchorsOfLine (i : Nat) (line : String) : List (Nat × String × List String) :=
  (match embeddedMatch line with
   | some (alt, g2) =>
     if natOfDigits alt ≤ 10000 ∧ natOfDigits alt % 1000 = 0 then
       let values := findallDigits g2
       if 4 ≤ values.length then [(i, alt, values.take 4)] else []
     else []
   | none => []) ++
  (match standaloneMatch line with
   | some (alt, g2) =>
     if natOfDigits alt ≤ 10000 ∧ natOfDigits alt % 1000 = 0 then
       let values := findallDigits g2
       if 4 ≤ values.length then [(i, alt, values.take 4)] else []
     else []
   | none => [])

/-- All altitude anchors of the page text, with their line indices. -/
def collectAnchors (lines : List String) : List (Nat × String × List String) :=
  lines.enum.flatMap fun p => anchorsOfLine p.1 p.2

/-! ## Column Reconstructor for mangled 0 °C rows (G1, lines 493–524)

`remaining` is the digit content of the line after the leading `'0'`
temperature marker.  Python's `range(0, min(len, 16), 4)` is the list of
multiples of 4 below `min(len, 16)`, i.e. `[0, 4, 8, 12]` filtered by
`< min(len, 16)`. -/
def reconstruct0Values (altitude : String) (r : List Char) : List String :=
  if r.length = 16 then
    [sliceStr r 0 4, sliceStr r 4 8, sliceStr r 8 12, sliceStr r 12 16]
  else if r.length = 15 then
    [sliceStr r 0 3, sliceStr r 3 7, sliceStr r 7 11, sliceStr r 11 15]
  else if r.length = 14 then
    if altitude = "10000" ∧ r.take 3 = ['8', '0', '9'] then
      [sliceStr r 0 3, sliceStr r 3 6, sliceStr r 6 10, sliceStr r 10 14]
    else
      [sliceStr r 0 3, sliceStr r 3 7, sliceStr r 7 11, sliceStr r 11 14]
  else if 12 ≤ r.length then
    if altitude = "8000" ∨ altitude = "9000" ∨ altitude = "10000" then
      [sliceStr r 0 3, sliceStr r 3 7, sliceStr r 7 11] ++
        (if 15 ≤ r.length then [sliceStr r 11 15] else [])
    else
      ([0, 4, 8, 12].filter fun i => i < min r.length 16).filterMap fun i =>
        if i + 3 < r.length then some (sliceStr r i (i + 4)) else none
  else []

/-- `re.match(r'^(\d{2})\s+([\d\s]+?)(?:[A-Z]|$)', line)` guarded by the
precheck `re.match(r'^\d{2}\s+\d', line)`.  The lazy group 2 expands until the
first character that is neither a digit nor whitespace; the match succeeds iff
that stopping character is an uppercase letter or the end of the string (no
earlier stop is possible: digits and whitespace are never uppercase). -/
def specialTempMatch (s : String) : Option (Nat × String) :=
  match s.toList with
  | c1 :: c2 :: rest =>
    if c1.isDigit ∧ c2.isDigit then
      let ws := rest.takeWhile pyWs
      let rest2 := rest.drop ws.length
      if 1 ≤ ws.length ∧ (rest2.headD ' ').isDigit then
        let m := rest2.takeWhile fun ch => ch.isDigit || pyWs ch
        if m.length = rest2.length ∨ (rest2.getD m.length ' ').isUpper then
          some ((c1.toNat - 48) * 10 + (c2.toNat - 48), String.mk m)
        else none
      else none
    else none
  | _ => none

/-- Temperatures recognised on continuation lines (G1, line 477). -/
def climbContTemps : List Int := [-30, -20, -10, 0, 10, 20, 30, 40, 50]

/-- The `while j < 15 and line_idx + j < len(lines)` loop of
`parse_climb_gradient_tables` (G1, lines 479–566): collect temperature
continuation lines for the current altitude block, threading the set of
consumed line indices and the per-altitude temperature map.  The loop runs `j`
from 1 while `j < 15`, i.e. at most 14 iterations: `fuel` is `15 - j`, so the
initial call uses `fuel = 14`, `j = 1`. -/
def windowLoop (lines : List String) (altitude : String) (lineIdx : Nat) :
    Nat → Nat → List Nat → List (Int × List String) →
    List Nat × List (Int × List String)
  | 0, _, processed, td => (processed, td)
  | Nat.succ fuel, j, processed, td =>
  if lines.length ≤ lineIdx + j then (processed, td)
  else if processed.contains (lineIdx + j) then
    windowLoop lines altitude lineIdx fuel (j + 1) processed td
  else
    let next_line := pyStrip (lines.getD (lineIdx + j) "")
    let nl := next_line.toList
    -- special handling for 0 °C rows mangled into one digit run
    let mangled : Option (List String) :=
      if nl.headD ' ' = '0' ∧ 10 < nl.length ∧
          (((nl.drop 1).take 4).contains ' ' ∨ ¬ ['0', ' '].isPrefixOf nl) then
        let all_digits := nl.filter Char.isDigit
        if 13 ≤ all_digits.length ∧ all_digits.headD ' ' = '0' then
          let values := reconstruct0Values altitude (all_digits.drop 1)
          if 3 ≤ values.length then some (values.take 4) else none
        else none
      else none
    match mangled with
    | some values =>
      windowLoop lines altitude lineIdx fuel (j + 1) (processed ++ [lineIdx + j])
        (dictInsert td 0 values)
    | none =>
      -- ordinary temperature continuation lines
      let tempHit : Option (Int × List String) := climbContTemps.findSome? fun t =>
        if (toString t ++ " ").toList.isPrefixOf nl then
          let values := digitRuns (nl.drop (toString t).length)
          let minValues := if 9000 ≤ natOfDigits altitude ∧ 40 ≤ t then 3 else 4
          if minValues ≤ values.length then some (t, values.take 4) else none
        else none
      match tempHit with
      | some (t, values) =>
        windowLoop lines altitude lineIdx fuel (j + 1) (processed ++ [lineIdx + j])
          (dictInsert td t values)
      | none =>
        -- special temperatures 41–50 (e.g. "43 321 436 567Engine Anti-Ice")
        let specialHit : Option (Int × List String) :=
          match specialTempMatch next_line with
          | some (tv, numPart) =>
            if 41 ≤ tv ∧ tv ≤ 50 then
              let values := findallDigits numPart
              if 3 ≤ values.length then some ((tv : Int), values.take 4) else none
            else none
          | none => none
        match specialHit with
        | some (t, values) =>
          windowLoop lines altitude lineIdx fuel (j + 1) (processed ++ [lineIdx + j])
            (dictInsert td t values)
        | none =>
          if pyContains next_line "Engine" ∨ pyContains next_line "Press" ∨
              pyContains next_line "-40" then
            (processed, td)
          else
            windowLoop lines altitude lineIdx fuel (j + 1) processed td

/-- Lines 469–582 of `extract_g1_data.py`: process one altitude anchor (skipped
if its line was already consumed), then emit its records sorted by
temperature. -/
def processAnchor (lines : List String) (st : List Nat × List ClimbRec)
    (a : Nat × String × List String) : List Nat × List ClimbRec :=
  if st.1.contains a.1 then st
  else
    let r := windowLoop lines a.2.1 a.1 14 1 st.1 [(-40, a.2.2)]
    (r.1, st.2 ++ emitAltitude a.2.1 (sortedItems r.2))

/-! ## Page Text Provider (G1, lines 106–112)

```
if page_num <= len(pdf_reader.pages):
    return pdf_reader.pages[page_num - 1].extract_text()
return ""
```
The document is the list of its pages' texts; the indexing `[page_num - 1]`
uses Python semantics (negative indices count from the end, out-of-range
raises `IndexError`, modelled as `none`). -/
def extract_text_from_page (pages : List String) (page_num : Int) : Option String :=
  if page_num ≤ (pages.length : Int) then pyListGet pages (page_num - 1)
  else some ""

/-- Python `range(start_page, end_page + 1)`. -/
def pageRange (startPage endPage : Int) : List Int :=
  (List.range (endPage + 1 - startPage).toNat).map fun k => startPage + (k : Int)

/-- `parse_climb_gradient_tables` (G1, lines 430–584): concatenate the page
texts (a raised `IndexError` from page extraction propagates, hence `Option`),
normalise `10,000`, split into lines, collect the altitude anchors, and process
them in order threading the consumed-line set.  The returned list holds the
data records (the CSV header row is not modelled). -/
def parse_climb_gradient_tables (pages : List String) (startPage endPage : Int) :
    Option (List ClimbRec) := do
  let texts ← (pageRange startPage endPage).mapM (extract_text_from_page pages)
  let all_text := texts.foldl (fun acc t => acc ++ t ++ "\n") ""
  let all_text := pyReplace all_text "10,000" "10000"
  let lines := splitOnNl all_text.toList
  let anchors := collectAnchors lines
  pure (anchors.foldl (processAnchor lines) ([], [])).2

/-- `parse_climb_rate_tables` (G1, lines 586–589) simply delegates to
`parse_climb_gradient_tables`. -/
def parse_climb_rate_tables (pages : List String) (startPage endPage : Int) :
    Option (List ClimbRec) :=
  parse_climb_gradient_tables pages startPage endPage

/-! ## The G2+ climb-matrix line processor

`parse_climb_gradient_tables` in `extract_g2plus_data.py` (lines 341–386)
scans lines with a current-altitude state.  `g2ClimbLine` is the body of its
`for line in lines` loop: it returns the updated current altitude and the
records appended for this line. -/

/-- A data row of a G2+ climb table; its temperature is the raw string the
code appends (`f"-{temp}"` for anchors, regex group 1 for continuations). -/
structure G2Rec where
  weight : Nat
  altitude : String
  temp : String
  value : String
deriving DecidableEq, Repr

/-- Python `str.split()` (split on whitespace runs, no empty fields);
`cur` is the current word, reversed. -/
def pyWordsGo (cur : List Char) : List Char → List String
  | [] => if cur.isEmpty then [] else [String.mk cur.reverse]
  | c :: cs =>
    if pyWs c then
      if cur.isEmpty then pyWordsGo [] cs
      else String.mk cur.reverse :: pyWordsGo [] cs
    else pyWordsGo (c :: cur) cs

/-- Python `str.split()`. -/
def pyWords (s : String) : List String := pyWordsGo [] s.toList

/-- Python `s.split(sep)` for a single-character separator. -/
def splitOnCh (sep : Char) : List Char → List String
  | [] => [""]
  | c :: cs =>
    let r := splitOnCh sep cs
    if c = sep then "" :: r
    else
      match r with
      | s :: rest => String.mk (c :: s.toList) :: rest
      | [] => [String.mk [c]]

/-- Python `line.find(sub)` (first occurrence), as an `Option`. -/
def findSubIdx (l pat : List Char) : Option Nat :=
  (List.range (l.length + 1)).find? fun i => pat.isPrefixOf (l.drop i)

/-- The altitude sequence used for validation in the G2+ extractor. -/
def expectedAltitudes : List String :=
  ["0", "1000", "2000", "3000", "4000", "5000", "6000", "7000", "8000", "9000", "10000"]

/-- `re.match(r'^(-?\d+)\s+(\d+)\s+(\d+)\s+(\d+)\s+(\d+)', line)`: an optional
sign, a digit run, then four groups of whitespace then digits (all runs
maximal; no backtracking can produce another shape). -/
def wsDigitRun (l : List Char) : Option (String × List Char) :=
  let ws := l.takeWhile pyWs
  let l2 := l.drop ws.length
  let d := l2.takeWhile Char.isDigit
  if 1 ≤ ws.length ∧ 1 ≤ d.length then some (String.mk d, l2.drop d.length) else none

/-- See `wsDigitRun`; returns (group 1, [groups 2–5]). -/
def tempLineMatch (s : String) : Option (String × List String) :=
  let l := s.toList
  let sign : List Char := if l.headD ' ' = '-' then ['-'] else []
  let l1 := l.drop sign.length
  let d0 := l1.takeWhile Char.isDigit
  if d0.isEmpty then none
  else do
    let (v1, r1) ← wsDigitRun (l1.drop d0.length)
    let (v2, r2) ← wsDigitRun r1
    let (v3, r3) ← wsDigitRun r2
    let (v4, _) ← wsDigitRun r3
    pure (String.mk (sign ++ d0), [v1, v2, v3, v4])

/-- `temp = parts[0].split('-')[1]` of the G2+ anchor patterns. -/
def g2AnchorTemp (parts : List String) : String :=
  (splitOnCh '-' (parts.headD "").toList).getD 1 ""

/-- Records appended by
`for w_idx, weight in enumerate(weights): if w_idx < len(values): ...`. -/
def g2Emit (altitude temp : String) (values : List String) : List G2Rec :=
  weights.enum.filterMap fun p =>
    if p.1 < values.length then
      some ⟨p.2, altitude, temp, values.getD p.1 ""⟩
    else none

/-- Body of the per-line loop of the G2+ `parse_climb_gradient_tables`
(lines 343–385; `parse_climb_rate_tables` repeats the same body): first the
`for alt in expected_altitudes` anchor search (clean prefix pattern, else the
page-header-embedded pattern requiring `"of"`; an alternative that does not
reach its `break` falls through to the next altitude), then, with a current
altitude and no altitude marker on the line, the plain temperature
continuation regex. -/
def g2ClimbLine (currentAlt : Option String) (line0 : String) :
    Option String × List G2Rec :=
  let line := pyStrip line0
  let anchorHit : Option (String × String × List String) :=
    expectedAltitudes.findSome? fun alt =>
      if (alt ++ "-").toList.isPrefixOf line.toList then
        let parts := pyWords line
        if 5 ≤ parts.length then
          some (alt, g2AnchorTemp parts, (parts.drop 1).take 4)
        else none
      else if pyContains line (alt ++ "-") ∧ pyContains line "of" then
        match findSubIdx line.toList (alt ++ "-").toList with
        | some idx =>
          let parts := pyWords (String.mk (line.toList.drop idx))
          if 5 ≤ parts.length then
            some (alt, g2AnchorTemp parts, (parts.drop 1).take 4)
          else none
        | none => none
      else none
  match anchorHit with
  | some (alt, temp, values) => (some alt, g2Emit alt ("-" ++ temp) values)
  | none =>
    match currentAlt with
    | some ca =>
      if expectedAltitudes.any (fun alt =>
          (alt ++ "-").toList.isPrefixOf line.toList ∨ pyContains line (alt ++ "-")) then
        (currentAlt, [])
      else
        match tempLineMatch line with
        | some (temp, values) => (currentAlt, g2Emit ca temp values)
        | none => (currentAlt, [])
    | none => (currentAlt, [])

/-! ### C3, counterexample -/

/-- **C3, counterexample.**  The claim says a continuation line whose
temperature was already recorded for the current altitude is *skipped* rather
than recorded or overwritten.  On the page text
`"1000-40 1 2 3 4\n-30 9 9 9 9\n-30 7 7 7 7"` the second `-30` line overwrites
the first one's values in `temp_data` (Python dict assignment, last write
wins): the emitted `-30` records carry value `"7"`, and no record with the
first line's value `"9"` survives. -/
theorem C3_counterexample :
    (⟨6000, "1000", -30, "7"⟩ : ClimbRec) ∈
      ((parse_climb_gradient_tables ["1000-40 1 2 3 4\n-30 9 9 9 9\n-30 7 7 7 7"] 1 1).getD
        []) ∧
    ∀ r ∈ ((parse_climb_gradient_tables
        ["1000-40 1 2 3 4\n-30 9 9 9 9\n-30 7 7 7 7"] 1 1).getD []),
      r.value ≠ "9" := by
  decide

/-! ### C5 -/

/-- **C5.**  In concatenated-digit mode, a 15-digit run (after the leading
temperature marker) is partitioned with widths [3,4,4,4]; a 14-digit run
beginning `809` at altitude 10000 is partitioned with widths [3,3,4,4]; each
partition yields exactly one value per group, in order. -/
theorem C5_concat_partitions (altitude : String) (r : List Char) :
    (r.length = 15 →
      reconstruct0Values altitude r =
        [sliceStr r 0 3, sliceStr r 3 7, sliceStr r 7 11, sliceStr r 11 15] ∧
      (reconstruct0Values altitude r).map String.length = [3, 4, 4, 4]) ∧
    (altitude = "10000" → r.length = 14 → r.take 3 = ['8', '0', '9'] →
      reconstruct0Values altitude r =
        [sliceStr r 0 3, sliceStr r 3 6, sliceStr r 6 10, sliceStr r 10 14] ∧
      (reconstruct0Values altitude r).map String.length = [3, 3, 4, 4]) := by
  constructor
  · intro h15
    have heq : reconstruct0Values altitude r =
        [sliceStr r 0 3, sliceStr r 3 7, sliceStr r 7 11, sliceStr r 11 15] := by
      unfold reconstruct0Values
      rw [if_neg (by omega), if_pos h15]
    refine ⟨heq, ?_⟩
    rw [heq]
    simp [sliceStr, String.length, List.length_take, List.length_drop]
    omega
  · intro halt h14 h809
    have heq : reconstruct0Values altitude r =
        [sliceStr r 0 3, sliceStr r 3 6, sliceStr r 6 10, sliceStr r 10 14] := by
      unfold reconstruct0Values
      rw [if_neg (by omega), if_neg (by omega), if_pos h14, if_pos ⟨halt, h809⟩]
    refine ⟨heq, ?_⟩
    rw [heq]
    simp [sliceStr, String.length, List.length_take, List.length_drop]
    omega

/-- **C5, witness**: the two partitions at concrete digit runs. -/
theorem C5_witness :
    reconstruct0Values "2000" "122714151634189".toList =
      ["122", "7141", "5163", "4189"] ∧
    reconstruct0Values "10000" "80996211371343".toList =
      ["809", "962", "1137", "1343"] := by
  have h1 := (C5_concat_partitions "2000" "122714151634189".toList).1 (by decide)
  have h2 := (C5_concat_partitions "10000" "80996211371343".toList).2 rfl (by decide)
    (by decide)
  exact ⟨by rw [h1.1]; decide, by rw [h2.1]; decide⟩

/-! ### C6 -/

/-- **C6, counterexample.**  The claim says a digit run whose length matches no
known width pattern for its altitude band yields no values and no records.  A
12-digit run matches none of the explicitly handled lengths (14, 15, 16), yet
at altitude 8000 the catch-all branch emits three values of widths [3,4,4]
(dropping the 12th digit), and the parser emits records for the row: page text
`"8000-40 1 2 3 4\n0123456789012"` yields three 0 °C records. -/
theorem C6_counterexample :
    ("123456789012".toList.length = 12 ∧ "123456789012".toList.length ∉ [14, 15, 16]) ∧
    reconstruct0Values "8000" "123456789012".toList = ["123", "4567", "8901"] ∧
    parse_climb_gradient_tables ["8000-40 1 2 3 4\n0123456789012"] 1 1 =
      some [⟨6000, "8000", -40, "1"⟩, ⟨5500, "8000", -40, "2"⟩,
            ⟨5000, "8000", -40, "3"⟩, ⟨4500, "8000", -40, "4"⟩,
            ⟨5500, "8000", 0, "123"⟩, ⟨5000, "8000", 0, "4567"⟩,
            ⟨4500, "8000", 0, "8901"⟩] := by
  decide

/-- **C6, amended.**  The column reconstructor fails closed exactly for digit
runs shorter than 12 (after the marker): those yield no values.  Any run of 12
or more digits yields at least one value through the explicit patterns or the
catch-all groupings, even when its length matches none of the listed width
patterns. -/
theorem C6_amended (altitude : String) (r : List Char) :
    (r.length < 12 → reconstruct0Values altitude r = []) ∧
    (12 ≤ r.length → reconstruct0Values altitude r ≠ []) := by
  constructor
  · intro h
    unfold reconstruct0Values
    split_ifs <;> first | rfl | omega
  · intro h
    unfold reconstruct0Values
    have h0 : (0 : Nat) < min r.length 16 := by omega
    have h03 : 0 + 3 < r.length := by omega
    split_ifs <;> simp_all

/-- **C6, witness** for the amended theorem: an 11-digit run yields nothing,
a 12-digit run yields values. -/
theorem C6_witness :
    reconstruct0Values "2000" "12345678901".toList = [] ∧
    reconstruct0Values "2000" "123456789012".toList ≠ [] := by
  exact ⟨(C6_amended "2000" "12345678901".toList).1 (by decide),
         (C6_amended "2000" "123456789012".toList).2 (by decide)⟩

/-! ### C8 -/

/-- **C8.**  The climb-matrix anchor line `"1000-40 1232 1301 1378 1455"` with
weights [6000, 5500, 5000, 4500] produces exactly 4 records, all at altitude
1000 and temperature −40, with the values assigned to the weights in order
(heaviest first), and sets the current altitude to 1000 for subsequent
continuation lines — in the G1 parser (first two conjuncts: the anchor alone,
then with a `-30` continuation line picked up at altitude 1000) and in the G2+
line processor (last two conjuncts: the anchor updates the altitude state, and
a continuation line is recorded at that altitude). -/
theorem C8_anchor_scenario :
    parse_climb_gradient_tables ["1000-40 1232 1301 1378 1455"] 1 1 =
      some [⟨6000, "1000", -40, "1232"⟩, ⟨5500, "1000", -40, "1301"⟩,
            ⟨5000, "1000", -40, "1378"⟩, ⟨4500, "1000", -40, "1455"⟩] ∧
    parse_climb_gradient_tables
        ["1000-40 1232 1301 1378 1455\n-30 1101 1201 1301 1401"] 1 1 =
      some [⟨6000, "1000", -40, "1232"⟩, ⟨5500, "1000", -40, "1301"⟩,
            ⟨5000, "1000", -40, "1378"⟩, ⟨4500, "1000", -40, "1455"⟩,
            ⟨6000, "1000", -30, "1101"⟩, ⟨5500, "1000", -30, "1201"⟩,
            ⟨5000, "1000", -30, "1301"⟩, ⟨4500, "1000", -30, "1401"⟩] ∧
    g2ClimbLine none "1000-40 1232 1301 1378 1455" =
      (some "1000",
       [⟨6000, "1000", "-40", "1232"⟩, ⟨5500, "1000", "-40", "1301"⟩,
        ⟨5000, "1000", "-40", "1378"⟩, ⟨4500, "1000", "-40", "1455"⟩]) ∧
    g2ClimbLine (some "1000") "-30 1101 1201 1301 1401" =
      (some "1000",
       [⟨6000, "1000", "-30", "1101"⟩, ⟨5500, "1000", "-30", "1201"⟩,
        ⟨5000, "1000", "-30", "1301"⟩, ⟨4500, "1000", "-30", "1401"⟩]) := by
  refine ⟨by decide, by decide, by decide, by decide⟩

/-! ### C9 -/

/-- **C9.**  In the G1 extractor, `parse_climb_rate_tables` is extensionally
equal to `parse_climb_gradient_tables`: for every document (list of page
texts) and every page range, both return the identical record list (the source
of `parse_climb_rate_tables` is a single delegating call). -/
theorem C9_rate_eq_gradient (pages : List String) (startPage endPage : Int) :
    parse_climb_rate_tables pages startPage endPage =
      parse_climb_gradient_tables pages startPage endPage := rfl

/-! ### C10 -/

/-- **C10, counterexample.**  The claim says every `page_num` less than or
equal to the page count is accepted without error.  Both conjuncts refute it:
`page_num = -1` on a one-page document satisfies `page_num <= len(pages)` but
`pages[-2]` raises `IndexError`; and `page_num = 0` on an empty document
satisfies `0 <= 0` but `pages[-1]` raises `IndexError` (so the claim's
"page_num = 0 returns the last page" also has no nonempty-document guard). -/
theorem C10_counterexample :
    ((-1 : Int) ≤ ((["x"] : List String).length : Int) ∧
      extract_text_from_page ["x"] (-1) = none) ∧
    ((0 : Int) ≤ (([] : List String).length : Int) ∧
      extract_text_from_page [] 0 = none) := by
  decide

/-- **C10, amended.**  On a nonempty document, `page_num = 0` returns the text
of the last page (Python negative indexing on `page_num - 1`) rather than an
empty string or an error; `1 ≤ page_num ≤ page count` returns page `page_num`
(1-based) without error; and only `page_num` strictly greater than the page
count returns the empty string.  (A sufficiently negative `page_num`, or
`page_num = 0` on an empty document, raises `IndexError` instead — see the
counterexample.) -/
theorem C10_amended (pages : List String) (n : Int) (hne : pages ≠ []) :
    (extract_text_from_page pages 0 = some (pages.getLastD "")) ∧
    (1 ≤ n → n ≤ (pages.length : Int) →
      extract_text_from_page pages n = pages.get? (n - 1).toNat ∧
      extract_text_from_page pages n ≠ none) ∧
    ((pages.length : Int) < n → extract_text_from_page pages n = some "") := by
  have hlen : 1 ≤ pages.length := List.length_pos.mpr hne
  refine ⟨?_, ?_, ?_⟩
  · unfold extract_text_from_page pyListGet
    rw [if_pos (by omega), if_neg (by omega), if_pos (by omega)]
    have c4 : ((pages.length : Int) + (0 - 1)).toNat = pages.length - 1 := by omega
    rw [c4, List.getLastD_eq_getLast?, List.get?_eq_getElem?, List.getLast?_eq_getElem?]
    cases pages with
    | nil => simp at hne
    | cons a t => simp
  · intro h1 h2
    unfold extract_text_from_page pyListGet
    rw [if_pos h2, if_pos (by omega)]
    refine ⟨rfl, ?_⟩
    intro hc
    rw [List.get?_eq_none] at hc
    omega
  · intro h3
    unfold extract_text_from_page
    rw [if_neg (by omega)]

/-- **C10, witness** for the amended theorem on a concrete two-page document:
`page_num = 0` gives the last page, `page_num = 2` gives page 2, `page_num = 3`
gives the empty string. -/
theorem C10_witness :
    extract_text_from_page ["p1", "p2"] 0 = some "p2" ∧
    extract_text_from_page ["p1", "p2"] 2 = some "p2" ∧
    extract_text_from_page ["p1", "p2"] 3 = some "" := by
  have h2 := C10_amended ["p1", "p2"] 2 (by decide)
  have h3 := C10_amended ["p1", "p2"] 3 (by decide)
  refine ⟨?_, ?_, h3.2.2 (by decide)⟩
  · rw [h2.1]; rfl
  · rw [(h2.2.1 (by decide) (by decide)).1]; rfl

/-! ## Takeoff and landing assemblers (G1)

Records of these tables can carry the computed reference-atmosphere
temperature, so `temp` is a rational here (Python appends `str(temp)` /
`str(isa_temp)`; the serialization is not modelled). -/

/-- A data row `[str(weight), altitude, str(temp), value]` of a takeoff or
landing table. -/
structure PerfRec where
  weight : Nat
  altitude : String
  temp : ℚ
  value : String
deriving DecidableEq, Repr

/-- Temperature columns of the takeoff tables (G1, line 203); integer °C,
written as rationals because the record's temperature field also carries the
computed reference-atmosphere value. -/
def temps8 : List ℚ := [-20, -10, 0, 10, 20, 30, 40, 50]

/-- `_add_performance_values` (G1, lines 244–270): map the row's tokens to
temperature columns, with fewer columns expected at altitude ≥ 5000 ft, and
emit a trailing reference-atmosphere record when a token is left over. -/
def addPerformanceValues (weight : Nat) (altitude : String) (values : List String) :
    List PerfRec :=
  let alt_int := natOfDigits altitude
  let expected_cols :=
    if 5000 ≤ alt_int ∧ values.length ≤ 9 then
      if values.length = 9 then 8
      else if values.length = 8 then 7
      else if values.length = 7 then 6
      else min values.length 8
    else min values.length 8
  let tempRecs := (List.range expected_cols).filterMap fun j =>
    if j < temps8.length ∧ j < values.length then
      some ⟨weight, altitude, temps8.getD j 0, values.getD j ""⟩
    else none
  tempRecs ++
    (if expected_cols < values.length then
      [⟨weight, altitude, calculate_isa_temp (alt_int : Int), values.getLastD ""⟩]
    else [])

/-- `\s*Gnd\s*Roll` after the altitude group of
`re.search(r'(SL|\d+)\s*Gnd\s*Roll', line)`. -/
def gndRollLabelAfter (u : List Char) : Bool :=
  let u1 := u.dropWhile pyWs
  if ['G', 'n', 'd'].isPrefixOf u1 then
    ['R', 'o', 'l', 'l'].isPrefixOf ((u1.drop 3).dropWhile pyWs)
  else false

/-- One candidate position for `re.search(r'(SL|\d+)\s*Gnd\s*Roll', line)`:
the alternation prefers `SL`; a digit-run alternative must be the maximal run
(shorter prefixes are followed by a digit, which the pattern cannot accept). -/
def gndRollAt (l : List Char) (i : Nat) : Option String :=
  let t := l.drop i
  if ['S', 'L'].isPrefixOf t then
    if gndRollLabelAfter (t.drop 2) then some "SL" else none
  else
    let d := t.takeWhile Char.isDigit
    if 1 ≤ d.length ∧ gndRollLabelAfter (t.drop d.length) then some (String.mk d)
    else none

/-- Group 1 of `re.search(r'(SL|\d+)\s*Gnd\s*Roll', line)` (leftmost match). -/
def searchAltGndRoll (line : String) : Option String :=
  (List.range line.toList.length).findSome? (gndRollAt line.toList)

/-- End position of the leftmost `Gnd\s*Roll\s*` occurrence (trailing
whitespace consumed greedily), for `re.sub(r'^.*?Gnd\s*Roll\s*', '', line)`. -/
def gndRollEnd (l : List Char) (i : Nat) : Option Nat :=
  if ['G', 'n', 'd'].isPrefixOf (l.drop i) then
    let u := l.drop (i + 3)
    let w1 := u.takeWhile pyWs
    let u2 := u.drop w1.length
    if ['R', 'o', 'l', 'l'].isPrefixOf u2 then
      some (i + 3 + w1.length + 4 + ((u2.drop 4).takeWhile pyWs).length)
    else none
  else none

/-- `re.sub(r'^.*?Gnd\s*Roll\s*', '', line)`: everything after the leftmost
`Gnd Roll` label (the line unchanged if there is none). -/
def afterGndRoll (line : String) : String :=
  match (List.range line.toList.length).findSome? (gndRollEnd line.toList) with
  | some e => String.mk (line.toList.drop e)
  | none => line

/-- Lines 211–228 of `parse_takeoff_tables` (G1): classify one stripped line as
a ground-run row, returning the normalized altitude (SL → 0, truncated `000` →
10000) and the digit tokens after the label. -/
def takeoffGndRollLine (line0 : String) : Option (String × List String) :=
  let line := pyStrip line0
  if pyContains line "Gnd Roll" then
    match searchAltGndRoll line with
    | some g1 =>
      let altitude := if g1 = "SL" then "0" else g1
      let altitude := if altitude = "000" then "10000" else altitude
      some (altitude, findallDigits (afterGndRoll line))
    | none => none
  else none

/-! ### C4 -/

set_option maxHeartbeats 1600000 in
/-- **C4.**  Universally: a takeoff ground-run row with exactly 9 tokens, at any
altitude and weight, yields the first 8 tokens on the temperatures −20 … 50 °C
in ascending order and exactly one trailing reference-atmosphere record with
the 9th token.  Concretely: the row
`"SLGnd Roll 550 600 650 700 750 800 850 900 910"` classifies to altitude 0
with those 9 tokens, and for weight 6000 the assembler emits the 8 temperature
records plus the reference-atmosphere record (temperature 15.0, value 910). -/
theorem C4_nine_token_rows :
    (∀ (w : Nat) (alt : String) (v1 v2 v3 v4 v5 v6 v7 v8 v9 : String),
      addPerformanceValues w alt [v1, v2, v3, v4, v5, v6, v7, v8, v9] =
        [⟨w, alt, -20, v1⟩, ⟨w, alt, -10, v2⟩, ⟨w, alt, 0, v3⟩, ⟨w, alt, 10, v4⟩,
         ⟨w, alt, 20, v5⟩, ⟨w, alt, 30, v6⟩, ⟨w, alt, 40, v7⟩, ⟨w, alt, 50, v8⟩,
         ⟨w, alt, calculate_isa_temp (natOfDigits alt : Int), v9⟩]) ∧
    takeoffGndRollLine "SLGnd Roll 550 600 650 700 750 800 850 900 910" =
      some ("0", ["550", "600", "650", "700", "750", "800", "850", "900", "910"]) ∧
    addPerformanceValues 6000 "0"
        ["550", "600", "650", "700", "750", "800", "850", "900", "910"] =
      [⟨6000, "0", -20, "550"⟩, ⟨6000, "0", -10, "600"⟩, ⟨6000, "0", 0, "650"⟩,
       ⟨6000, "0", 10, "700"⟩, ⟨6000, "0", 20, "750"⟩, ⟨6000, "0", 30, "800"⟩,
       ⟨6000, "0", 40, "850"⟩, ⟨6000, "0", 50, "900"⟩, ⟨6000, "0", 15, "910"⟩] := by
  refine ⟨?_, by decide, by decide⟩
  intro w alt v1 v2 v3 v4 v5 v6 v7 v8 v9
  unfold addPerformanceValues
  by_cases halt : 5000 ≤ natOfDigits alt <;>
    norm_num [halt, temps8, List.range_succ, List.filterMap_cons]

/-! ## Landing assembler (G1) -/

/-- `_add_landing_values` (G1, lines 373–413): the regular configurations put
the first token on 0 °C, the middle tokens on 10–50 °C and the last token on
the reference-atmosphere temperature; the `"50 ice"` configuration puts the
first token on −20 °C and all remaining tokens on [−10, 0, 10], with no
reference-atmosphere record. -/
def addLandingValues (weight : Nat) (altitude : String) (values : List String)
    (flap_setting : String) : List PerfRec :=
  let alt_int := (natOfDigits altitude : Int)
  if 0 < values.length then
    if flap_setting = "50 ice" then
      let all_temps : List ℚ := [-10, 0, 10]
      ⟨weight, altitude, -20, values.headD ""⟩ ::
        (if 1 < values.length then
          (List.range (values.length - 1)).filterMap fun i =>
            if i < all_temps.length then
              some ⟨weight, altitude, all_temps.getD i 0, values.getD (i + 1) ""⟩
            else none
        else [])
    else
      let all_temps : List ℚ := [10, 20, 30, 40, 50]
      ⟨weight, altitude, 0, values.headD ""⟩ ::
        (if 1 < values.length then
          ((List.range (values.length - 2)).filterMap fun i =>
            if i < all_temps.length then
              some ⟨weight, altitude, all_temps.getD i 0, values.getD (i + 1) ""⟩
            else none) ++
          [⟨weight, altitude, calculate_isa_temp alt_int, values.getLastD ""⟩]
        else [])
  else []

/-! ### C7 -/

/-- The values of the fixed ISA dictionary. -/
def isaGridVals : List ℚ := isaValues.map Prod.snd

/-- A dict lookup yields a stored value or the default. -/
theorem pyDictGet_cases (td : List (Int × ℚ)) (k : Int) (d : ℚ) :
    pyDictGet td k d ∈ td.map Prod.snd ∨ pyDictGet td k d = d := by
  induction td with
  | nil => right; rfl
  | cons p rest ih =>
    obtain ⟨q, v⟩ := p
    by_cases h : k = q
    · left
      simp [pyDictGet, h]
    · rcases ih with hmem | hd
      · left
        simp only [pyDictGet, if_neg h, List.map_cons, List.mem_cons]
        exact Or.inr hmem
      · right
        simp only [pyDictGet, if_neg h]
        exact hd

/-- The resolver returns either a dictionary value or the linear formula. -/
theorem isa_cases (a : Int) :
    calculate_isa_temp a ∈ isaGridVals ∨
    calculate_isa_temp a = 15 - (a : ℚ) / 1000 * (198 / 100) :=
  pyDictGet_cases isaValues a _

/-- The linear ISA formula and the grid values never hit −20, −10, 0 or 10 °C
at an integer altitude (the formula would need a non-integer altitude). -/
theorem isa_temp_not_small (a : Int) :
    calculate_isa_temp a ∉ ([-20, -10, 0, 10] : List ℚ) := by
  intro hmem
  rcases isa_cases a with hg | hf
  · have hng : ∀ v ∈ isaGridVals, v ∉ ([-20, -10, 0, 10] : List ℚ) := by
      intro v hv
      simp only [isaGridVals, isaValues, List.map_cons, List.map_nil, List.mem_cons,
        List.not_mem_nil, or_false] at hv
      rcases hv with h | h | h | h | h | h | h | h | h | h | h <;> subst h <;>
        norm_num [List.mem_cons]
    exact hng _ hg hmem
  · rw [hf] at hmem
    simp only [List.mem_cons, List.not_mem_nil, or_false] at hmem
    rcases hmem with h | h | h | h
    · have h2 : (a : ℚ) * 99 = 1750000 := by linarith
      have h3 : a * 99 = 1750000 := by exact_mod_cast h2
      omega
    · have h2 : (a : ℚ) * 99 = 1250000 := by linarith
      have h3 : a * 99 = 1250000 := by exact_mod_cast h2
      omega
    · have h2 : (a : ℚ) * 99 = 750000 := by linarith
      have h3 : a * 99 = 750000 := by exact_mod_cast h2
      omega
    · have h2 : (a : ℚ) * 99 = 250000 := by linarith
      have h3 : a * 99 = 250000 := by exact_mod_cast h2
      omega

/-- **C7, counterexample.**  The claim says every record of the 50-ice landing
configuration has a negative temperature.  A full row emits the temperatures
−20, −10, 0, 10: records at 0 °C and 10 °C are not negative. -/
theorem C7_counterexample :
    (addLandingValues 5550 "0" ["100", "200", "300", "400"] "50 ice").map PerfRec.temp =
      [-20, -10, 0, 10] ∧
    ¬ ∀ r ∈ addLandingValues 5550 "0" ["100", "200", "300", "400"] "50 ice",
        r.temp < 0 := by
  decide

/-- **C7, amended.**  Every record the landing assembler emits for the 50-ice
configuration has temperature in {−20, −10, 0, 10} (an integer not exceeding
10 °C — not necessarily negative), and no reference-atmosphere record is ever
emitted for that configuration: no record's temperature equals the
reference-atmosphere temperature of its altitude. -/
theorem C7_amended (weight : Nat) (altitude : String) (values : List String) :
    (∀ r ∈ addLandingValues weight altitude values "50 ice",
       r.temp ∈ ([-20, -10, 0, 10] : List ℚ)) ∧
    (∀ r ∈ addLandingValues weight altitude values "50 ice",
       r.temp ≠ calculate_isa_temp (natOfDigits altitude : Int)) := by
  have hmain : ∀ r ∈ addLandingValues weight altitude values "50 ice",
      r.temp ∈ ([-20, -10, 0, 10] : List ℚ) := by
    intro r hr
    by_cases hv : 0 < values.length
    · rw [addLandingValues, if_pos hv, if_pos rfl] at hr
      rcases List.mem_cons.mp hr with h | h
      · subst h; simp
      · by_cases h1 : 1 < values.length
        · rw [if_pos h1, List.mem_filterMap] at h
          obtain ⟨i, _, hcond⟩ := h
          by_cases hi : i < ([-10, 0, 10] : List ℚ).length
          · rw [if_pos hi] at hcond
            injection hcond with hr2
            subst hr2
            have hi3 : i < 3 := by simpa using hi
            interval_cases i <;> simp [List.getD]
          · rw [if_neg hi] at hcond
            cases hcond
        · rw [if_neg h1] at h
          cases h
    · rw [addLandingValues, if_neg hv] at hr
      cases hr
  refine ⟨hmain, fun r hr heq => ?_⟩
  exact isa_temp_not_small (natOfDigits altitude : Int) (heq ▸ hmain r hr)

/-- **C7, witness** for the amended theorem at a one-token row. -/
theorem C7_witness :
    (⟨5550, "0", (-20 : ℚ), "9"⟩ : PerfRec).temp ∈ ([-20, -10, 0, 10] : List ℚ) ∧
    (⟨5550, "0", (-20 : ℚ), "9"⟩ : PerfRec).temp ≠
      calculate_isa_temp (natOfDigits "0" : Int) :=
  ⟨(C7_amended 5550 "0" ["9"]).1 _ (by decide),
   (C7_amended 5550 "0" ["9"]).2 _ (by decide)⟩

end SF50
